import Mathlib

/-!
Shallow embedding of the weather-visualizer script (src/main.py).

JSON values are modelled by an inductive type with Python truthiness and
subscription semantics; Python exceptions are modelled by an explicit error
type carried in Except.  The matplotlib/seaborn rendering calls are opaque
side effects: only their control flow (the empty-sequence guard of the pie
chart) and the file writes performed by savefig are modelled, as events in a
trace.  Local-time conversion (datetime.datetime.fromtimestamp) is modelled
as adding a fixed timezone offset to the epoch value.  Numeric JSON values
are carried as integers: the program never computes with them, it only moves
them from the response into the plot calls.
-/

namespace Weather

/-- A JSON-like Python value: None, number, string, list or dict. -/
inductive JValue where
  | null
  | num (n : Int)
  | str (s : String)
  | arr (xs : List JValue)
  | obj (fields : List (String × JValue))

/-- Python exceptions that the embedded code can raise. -/
inductive PyErr where
  | keyError (k : JValue)
  | typeError
  | indexError
  | fileNotFoundError
  | fileExistsError

/-- Python truthiness (`if v:`) for the modelled values. -/
def JValue.truthy : JValue → Bool
  | .null => false
  | .num n => n != 0
  | .str s => s != ""
  | .arr xs => !xs.isEmpty
  | .obj fs => !fs.isEmpty

/-- First binding of a key in a dict (Python dicts have unique keys). -/
def lookupField : List (String × JValue) → String → Option JValue
  | [], _ => none
  | f :: rest, key => if f.1 = key then some f.2 else lookupField rest key

/-- Python subscription with a string key, `v["k"]`: dict lookup raising
KeyError when absent, TypeError on any non-dict value. -/
def JValue.getItem : JValue → String → Except PyErr JValue
  | .obj fs, k =>
    match lookupField fs k with
    | some v => .ok v
    | none => .error (.keyError (.str k))
  | _, _ => .error .typeError

/-- Python subscription with an integer index, `v[i]`. -/
def JValue.getIdx : JValue → Nat → Except PyErr JValue
  | .arr xs, i =>
    match xs[i]? with
    | some v => .ok v
    | none => .error .indexError
  | .str s, i =>
    match s.data[i]? with
    | some c => .ok (.str (String.mk [c]))
    | none => .error .indexError
  | .obj _, i => .error (.keyError (.num i))
  | _, _ => .error .typeError

/-- Is needle a contiguous substring of hay (Python `"a" in "bca"`). -/
def isSubstring : List Char → List Char → Bool
  | needle, [] => needle.isEmpty
  | needle, c :: rest => needle.isPrefixOf (c :: rest) || isSubstring needle rest

/-- Python membership test with a string needle, `"k" in v`: key membership
for dicts, element equality for lists, substring for strings, TypeError
otherwise. -/
def pyContains (v : JValue) (k : String) : Except PyErr Bool :=
  match v with
  | .obj fs => .ok (fs.any (fun f => f.1 == k))
  | .arr xs =>
    .ok (xs.any (fun x => match x with | .str s => s == k | _ => false))
  | .str s => .ok (isSubstring k.data s.data)
  | _ => .error .typeError

/-- Python `len(v)` for sized values, TypeError otherwise. -/
def pyLen (v : JValue) : Except PyErr Nat :=
  match v with
  | .arr xs => .ok xs.length
  | .str s => .ok s.data.length
  | .obj fs => .ok fs.length
  | _ => .error .typeError

/-- The value sequence produced by Python iteration, `for x in v`: the
elements of a list, the keys of a dict, the one-character strings of a
string; TypeError on non-iterable values. -/
def asIterable : JValue → Except PyErr (List JValue)
  | .arr xs => .ok xs
  | .obj fs => .ok (fs.map (fun f => .str f.1))
  | .str s => .ok (s.data.map (fun c => .str (String.mk [c])))
  | _ => .error .typeError

/-- datetime.datetime.fromtimestamp(v) under a fixed local timezone offset:
the local calendar timestamp is modelled as offset + epoch; non-numeric
arguments raise TypeError. -/
def fromtimestamp (tz : Int) (v : JValue) : Except PyErr Int :=
  match v with
  | .num n => .ok (tz + n)
  | _ => .error .typeError

/-- Sequential effectful map over a list, first raised error wins: models
the Python for-loop of process_forecast_data (src/main.py lines 86-96). -/
def mapExcept (f : α → Except PyErr β) : List α → Except PyErr (List β)
  | [] => .ok []
  | x :: xs =>
    match f x with
    | .error e => .error e
    | .ok y =>
      match mapExcept f xs with
      | .error e => .error e
      | .ok ys => .ok (y :: ys)

/-- The six values one loop iteration appends, one per column. -/
structure Row where
  ts : Int
  temp : JValue
  feels : JValue
  hum : JValue
  wind : JValue
  cond : JValue

/-- The six parallel lists built by process_forecast_data. -/
structure Columns where
  timestamps : List Int
  temperatures : List JValue
  feels_like_temps : List JValue
  humidities : List JValue
  wind_speeds : List JValue
  weather_descriptions_main : List JValue

/-- Reassemble the per-iteration rows into the six parallel lists (the loop
appends to all six lists in each iteration, which is the same as mapping
each projection over the rows). -/
def columnsOf (rows : List Row) : Columns :=
  ⟨rows.map Row.ts, rows.map Row.temp, rows.map Row.feels,
   rows.map Row.hum, rows.map Row.wind, rows.map Row.cond⟩

/-- The condition-label extraction of src/main.py lines 93-96:
if entry["weather"] and len(entry["weather"]) > 0 then take
entry["weather"][0]["main"] else append "N/A".  The argument is the value
of entry["weather"]; the `and` short-circuits, so len is only evaluated on
truthy values. -/
def extractCond (weather : JValue) : Except PyErr JValue :=
  if weather.truthy then
    match pyLen weather with
    | .error e => .error e
    | .ok len =>
      if len > 0 then
        match weather.getIdx 0 with
        | .error e => .error e
        | .ok first => first.getItem "main"
      else .ok (.str "N/A")
  else .ok (.str "N/A")

/-- One iteration of the loop in process_forecast_data (src/main.py lines
86-96): each subscription is performed in source order and any failure
propagates as a raised exception.  entry["main"] is subscripted three
separate times, as in the source. -/
def processEntry (tz : Int) (entry : JValue) : Except PyErr Row :=
  match entry.getItem "dt" with
  | .error e => .error e
  | .ok dtv =>
    match fromtimestamp tz dtv with
    | .error e => .error e
    | .ok ts =>
      match entry.getItem "main" with
      | .error e => .error e
      | .ok main1 =>
        match main1.getItem "temp" with
        | .error e => .error e
        | .ok temp =>
          match entry.getItem "main" with
          | .error e => .error e
          | .ok main2 =>
            match main2.getItem "feels_like" with
            | .error e => .error e
            | .ok feels =>
              match entry.getItem "main" with
              | .error e => .error e
              | .ok main3 =>
                match main3.getItem "humidity" with
                | .error e => .error e
                | .ok hum =>
                  match entry.getItem "wind" with
                  | .error e => .error e
                  | .ok wind1 =>
                    match wind1.getItem "speed" with
                    | .error e => .error e
                    | .ok speed =>
                      match entry.getItem "weather" with
                      | .error e => .error e
                      | .ok weather =>
                        match extractCond weather with
                        | .error e => .error e
                        | .ok cond => .ok ⟨ts, temp, feels, hum, speed, cond⟩

/-- process_forecast_data (src/main.py lines 64-98).  Returns .ok none for
the Python return None (invalid data), .ok (some cols) for a normal return,
and .error e for an exception raised out of the function.  The guard is
`if not data or "list" not in data`, with Python short-circuit `or`. -/
def process_forecast_data (tz : Int) (data : JValue) : Except PyErr (Option Columns) :=
  if !data.truthy then .ok none
  else
    match pyContains data "list" with
    | .error e => .error e
    | .ok hasList =>
      if !hasList then .ok none
      else
        match data.getItem "list" with
        | .error e => .error e
        | .ok lst =>
          match asIterable lst with
          | .error e => .error e
          | .ok entries =>
            match mapExcept (processEntry tz) entries with
            | .error e => .error e
            | .ok rows => .ok (some (columnsOf rows))

example : process_forecast_data 0 (.obj [("list", .arr [])]) =
    .ok (some ⟨[], [], [], [], [], []⟩) := rfl

example : process_forecast_data 0 (.obj []) = .ok none := rfl

example : process_forecast_data 0 (.obj [("cod", .str "200")]) = .ok none := rfl

/-- Python str.strip(): drop leading and trailing whitespace. -/
def pyStrip (s : String) : String :=
  String.mk (((s.data.dropWhile Char.isWhitespace).reverse.dropWhile
    Char.isWhitespace).reverse)

/-- get_api_key (src/main.py lines 17-29).  envKey is os.getenv on the key
variable (None when unset); promptInput is what input() would return when
prompted.  `some k` is a normal return of k; `none` is the exit() call.
Python truthiness of the Optional string collapses None and "". -/
def get_api_key (envKey : Option String) (promptInput : String) : Option String :=
  let api_key := match envKey with | some s => s | none => ""
  let api_key := if api_key = "" then pyStrip promptInput else api_key
  if api_key = "" then none else some api_key

/-- The outcome of the one requests.get call plus body decoding, as observed
at the network boundary: a decoded JSON body on success, or which exception
the requests machinery raises.  raise_for_status raises HTTPError exactly on
error statuses; other request failures (DNS, timeout, refused) raise
RequestException; an undecodable 2xx body raises JSONDecodeError from
response.json(). -/
inductive NetOutcome where
  | ok (body : JValue)
  | httpError (status : Nat)
  | requestError
  | decodeError

/-- Which diagnostic fetch_weather_data prints on a failure path. -/
inductive Diag where
  | authFailed
  | cityNotFound
  | httpOther (status : Nat)
  | requestFailed
  | decodeFailed

/-- fetch_weather_data (src/main.py lines 31-62): classify the outcome of
the request.  Every failure branch prints one diagnostic and falls through
to `return None`; a total Lean function, so no exception escapes. -/
def fetch_weather_data (outcome : NetOutcome) : Option JValue × Option Diag :=
  match outcome with
  | .ok body => (some body, none)
  | .httpError status =>
    if status = 401 then (none, some .authFailed)
    else if status = 404 then (none, some .cityNotFound)
    else (none, some (.httpOther status))
  | .requestError => (none, some .requestFailed)
  | .decodeError => (none, some .decodeFailed)

def PLOTS_DIR : String := "visualizations"

/-- os.path.join for the one-level paths used here. -/
def pathJoin (dir file : String) : String := dir ++ "/" ++ file

/-- Observable events of one run. -/
inductive Event where
  | exited
  | cityMissing
  | fetchCall
  | fetchDiag (d : Diag)
  | processFailed
  | retrieveFailed
  | createDir
  | plotTemp (timestamps : List Int) (temps feels_like_temps : List JValue)
  | plotHum (timestamps : List Int) (humidities : List JValue)
  | plotWind (timestamps : List Int) (wind_speeds : List JValue)
  | piePlot (weather_descriptions_main : List JValue)
  | pieSkipped
  | writeFile (path : String)

/-- os.makedirs on the plots directory: creates it when absent, raises
FileExistsError when it already exists.  The filesystem state is the one
boolean that matters here: whether PLOTS_DIR exists. -/
def makedirs (dirExists : Bool) : Except PyErr Bool :=
  if dirExists then .error .fileExistsError else .ok true

/-- ensure_plots_dir (src/main.py lines 100-104): makedirs guarded by an
existence check.  Returns the new directory state and the emitted events. -/
def ensure_plots_dir (dirExists : Bool) : Except PyErr (Bool × List Event) :=
  if !dirExists then
    match makedirs dirExists with
    | .error e => .error e
    | .ok d => .ok (d, [.createDir])
  else .ok (dirExists, [])

/-- plt.savefig: writes the file, raising FileNotFoundError when the
destination directory does not exist. -/
def savefig (dirExists : Bool) (filename : String) : Except PyErr Event :=
  if dirExists then .ok (.writeFile filename) else .error .fileNotFoundError

/-- plot_temperature_forecast (src/main.py lines 107-123).  The seaborn and
matplotlib styling calls are opaque; what is modelled is the data the call
receives and the savefig write. -/
def plot_temperature_forecast (dirExists : Bool) (timestamps : List Int)
    (temps feels_like_temps : List JValue) (city : String) :
    Except PyErr (List Event) :=
  match savefig dirExists (pathJoin PLOTS_DIR "temperature_forecast.png") with
  | .error e => .error e
  | .ok ev => .ok [.plotTemp timestamps temps feels_like_temps, ev]

/-- plot_humidity_forecast (src/main.py lines 125-141). -/
def plot_humidity_forecast (dirExists : Bool) (timestamps : List Int)
    (humidities : List JValue) (city : String) : Except PyErr (List Event) :=
  match savefig dirExists (pathJoin PLOTS_DIR "humidity_forecast.png") with
  | .error e => .error e
  | .ok ev => .ok [.plotHum timestamps humidities, ev]

/-- plot_wind_speed_forecast (src/main.py lines 143-158). -/
def plot_wind_speed_forecast (dirExists : Bool) (timestamps : List Int)
    (wind_speeds : List JValue) (city : String) : Except PyErr (List Event) :=
  match savefig dirExists (pathJoin PLOTS_DIR "wind_speed_forecast.png") with
  | .error e => .error e
  | .ok ev => .ok [.plotWind timestamps wind_speeds, ev]

/-- plot_weather_conditions_pie (src/main.py lines 160-181): the empty-list
guard `if not weather_descriptions_main` skips the whole function (no
savefig); otherwise the Counter histogram is rendered (opaque) and the file
written. -/
def plot_weather_conditions_pie (dirExists : Bool)
    (weather_descriptions_main : List JValue) (city : String) :
    Except PyErr (List Event) :=
  if weather_descriptions_main.isEmpty then .ok [.pieSkipped]
  else
    match savefig dirExists (pathJoin PLOTS_DIR "weather_conditions_pie_chart.png") with
    | .error e => .error e
    | .ok ev => .ok [.piePlot weather_descriptions_main, ev]

/-- The process environment and external world of one run: the two
environment variables, what input() would return, the local timezone
offset, the network outcome and the initial filesystem state. -/
structure Env where
  envApiKey : Option String
  promptInput : String
  cityName : Option String
  tz : Int
  response : NetOutcome
  dirExists : Bool

def diagEvents : Option Diag → List Event
  | some d => [.fetchDiag d]
  | none => []

/-- main (src/main.py lines 183-220): the full sequential pipeline.
.ok trace is a run that ends by returning (or exiting) from main; .error e
is an exception propagating uncaught out of main.  `if weather_data:` and
`if not city_name:` are Python truthiness tests; `if not processed_data:`
tests a None-or-6-tuple, and a tuple is always truthy, so it is exactly the
None test. -/
def main_run (env : Env) : Except PyErr (List Event) :=
  match get_api_key env.envApiKey env.promptInput with
  | none => .ok [.exited]
  | some _ =>
    match env.cityName with
    | none => .ok [.cityMissing]
    | some city =>
      if city = "" then .ok [.cityMissing]
      else
        match fetch_weather_data env.response with
        | (none, diag) => .ok ([.fetchCall] ++ diagEvents diag ++ [.retrieveFailed])
        | (some data, diag) =>
          if data.truthy then
            match process_forecast_data env.tz data with
            | .error e => .error e
            | .ok none => .ok ([.fetchCall] ++ diagEvents diag ++ [.processFailed])
            | .ok (some cols) =>
              match ensure_plots_dir env.dirExists with
              | .error e => .error e
              | .ok (dirE, dirEvs) =>
                match plot_temperature_forecast dirE cols.timestamps
                    cols.temperatures cols.feels_like_temps city with
                | .error e => .error e
                | .ok evT =>
                  match plot_humidity_forecast dirE cols.timestamps
                      cols.humidities city with
                  | .error e => .error e
                  | .ok evH =>
                    match plot_wind_speed_forecast dirE cols.timestamps
                        cols.wind_speeds city with
                    | .error e => .error e
                    | .ok evW =>
                      match plot_weather_conditions_pie dirE
                          cols.weather_descriptions_main city with
                      | .error e => .error e
                      | .ok evP =>
                        .ok ([.fetchCall] ++ diagEvents diag ++ dirEvs
                          ++ evT ++ evH ++ evW ++ evP)
          else .ok ([.fetchCall] ++ diagEvents diag ++ [.retrieveFailed])

/-- The file paths written during a trace, in order. -/
def writesOf : List Event → List String
  | [] => []
  | .writeFile p :: rest => p :: writesOf rest
  | _ :: rest => writesOf rest

/-- The files a whole run writes (none when the run dies on an exception:
the exception interrupts the pipeline mid-way; every claim using this is
about runs that do not raise). -/
def mainWrites (env : Env) : List String :=
  match main_run env with
  | .ok tr => writesOf tr
  | .error _ => []

/-! Helper lemmas about the embedding. -/

theorem mapExcept_ok_length (f : α → Except PyErr β) :
    ∀ (xs : List α) (ys : List β), mapExcept f xs = .ok ys → ys.length = xs.length := by
  intro xs
  induction xs with
  | nil =>
    intro ys h
    injection h with h2
    subst h2
    rfl
  | cons a xs ih =>
    intro ys h
    cases hf : f a with
    | error e => simp [mapExcept, hf] at h
    | ok y =>
      cases hm : mapExcept f xs with
      | error e => simp [mapExcept, hf, hm] at h
      | ok ys2 =>
        simp only [mapExcept, hf, hm, Except.ok.injEq] at h
        subst h
        simp [ih ys2 hm]

theorem mapExcept_ok_getElem (f : α → Except PyErr β) :
    ∀ (xs : List α) (ys : List β), mapExcept f xs = .ok ys →
      ∀ (i : Nat) (x : α), xs[i]? = some x →
        ∃ y, f x = .ok y ∧ ys[i]? = some y := by
  intro xs
  induction xs with
  | nil =>
    intro ys h i x hx
    simp at hx
  | cons a xs ih =>
    intro ys h i x hx
    cases hf : f a with
    | error e => simp [mapExcept, hf] at h
    | ok y =>
      cases hm : mapExcept f xs with
      | error e => simp [mapExcept, hf, hm] at h
      | ok ys2 =>
        simp only [mapExcept, hf, hm, Except.ok.injEq] at h
        subst h
        cases i with
        | zero =>
          simp only [List.getElem?_cons_zero, Option.some.injEq] at hx
          subst hx
          exact ⟨y, hf, by simp⟩
        | succ n =>
          simp only [List.getElem?_cons_succ] at hx
          obtain ⟨y2, hfy, hy⟩ := ih ys2 hm n x hx
          exact ⟨y2, hfy, by simpa using hy⟩

theorem mapExcept_error_of_mem (f : α → Except PyErr β) :
    ∀ (xs : List α) (x : α), x ∈ xs → (∃ e, f x = .error e) →
      ∃ e2, mapExcept f xs = .error e2 := by
  intro xs
  induction xs with
  | nil =>
    intro x hx
    cases hx
  | cons a xs ih =>
    intro x hx he
    obtain ⟨e, hfe⟩ := he
    cases hx with
    | head => exact ⟨e, by simp [mapExcept, hfe]⟩
    | tail _ hmem =>
      cases hf : f a with
      | error e2 => exact ⟨e2, by simp [mapExcept, hf]⟩
      | ok y =>
        obtain ⟨e2, hm⟩ := ih x hmem ⟨e, hfe⟩
        exact ⟨e2, by simp [mapExcept, hf, hm]⟩

theorem mapExcept_error_src (f : α → Except PyErr β) :
    ∀ (xs : List α) (e : PyErr), mapExcept f xs = .error e →
      ∃ x, x ∈ xs ∧ f x = .error e := by
  intro xs
  induction xs with
  | nil =>
    intro e h
    exact Except.noConfusion h
  | cons a xs ih =>
    intro e h
    cases hf : f a with
    | error e2 =>
      simp only [mapExcept, hf] at h
      injection h with h2
      subst h2
      exact ⟨a, List.mem_cons_self a xs, hf⟩
    | ok y =>
      cases hm : mapExcept f xs with
      | error e2 =>
        simp only [mapExcept, hf, hm] at h
        injection h with h2
        subst h2
        obtain ⟨x, hx, hfx⟩ := ih e2 hm
        exact ⟨x, List.mem_cons_of_mem a hx, hfx⟩
      | ok ys =>
        simp [mapExcept, hf, hm] at h

theorem except_ok_ne_error {β : Type} {C : Prop} {x : β} {e : PyErr}
    (h : (Except.ok x : Except PyErr β) = .error e) : C :=
  Except.noConfusion h

/-- An error is directory-safe when it is not one of the two filesystem
errors that the directory handling could in principle produce. -/
def PyErr.dirSafe (e : PyErr) : Prop :=
  e ≠ .fileNotFoundError ∧ e ≠ .fileExistsError

theorem getItem_error_safe (v : JValue) (k : String) (e : PyErr)
    (h : v.getItem k = .error e) : e.dirSafe := by
  cases v <;> simp only [JValue.getItem] at h
  case obj fs =>
    split at h
    · exact Except.noConfusion h
    · injection h with h2
      subst h2
      exact ⟨fun hc => PyErr.noConfusion hc, fun hc => PyErr.noConfusion hc⟩
  all_goals
    injection h with h2
  all_goals
    subst h2
  all_goals
    exact ⟨fun hc => PyErr.noConfusion hc, fun hc => PyErr.noConfusion hc⟩

theorem getIdx_error_safe (v : JValue) (i : Nat) (e : PyErr)
    (h : v.getIdx i = .error e) : e.dirSafe := by
  cases v <;> simp only [JValue.getIdx] at h
  case arr xs =>
    split at h
    · exact Except.noConfusion h
    · injection h with h2
      subst h2
      exact ⟨fun hc => PyErr.noConfusion hc, fun hc => PyErr.noConfusion hc⟩
  case str s =>
    split at h
    · exact Except.noConfusion h
    · injection h with h2
      subst h2
      exact ⟨fun hc => PyErr.noConfusion hc, fun hc => PyErr.noConfusion hc⟩
  all_goals
    injection h with h2
  all_goals
    subst h2
  all_goals
    exact ⟨fun hc => PyErr.noConfusion hc, fun hc => PyErr.noConfusion hc⟩

theorem pyContains_error_safe (v : JValue) (k : String) (e : PyErr)
    (h : pyContains v k = .error e) : e.dirSafe := by
  cases v <;> simp only [pyContains] at h <;>
    first
      | exact Except.noConfusion h
      | (injection h with h2
         subst h2
         exact ⟨fun hc => PyErr.noConfusion hc, fun hc => PyErr.noConfusion hc⟩)

theorem pyLen_error_safe (v : JValue) (e : PyErr)
    (h : pyLen v = .error e) : e.dirSafe := by
  cases v <;> simp only [pyLen] at h <;>
    first
      | exact Except.noConfusion h
      | (injection h with h2
         subst h2
         exact ⟨fun hc => PyErr.noConfusion hc, fun hc => PyErr.noConfusion hc⟩)

theorem asIterable_error_safe (v : JValue) (e : PyErr)
    (h : asIterable v = .error e) : e.dirSafe := by
  cases v <;> simp only [asIterable] at h <;>
    first
      | exact Except.noConfusion h
      | (injection h with h2
         subst h2
         exact ⟨fun hc => PyErr.noConfusion hc, fun hc => PyErr.noConfusion hc⟩)

theorem fromtimestamp_error_safe (tz : Int) (v : JValue) (e : PyErr)
    (h : fromtimestamp tz v = .error e) : e.dirSafe := by
  cases v <;> simp only [fromtimestamp] at h <;>
    first
      | exact Except.noConfusion h
      | (injection h with h2
         subst h2
         exact ⟨fun hc => PyErr.noConfusion hc, fun hc => PyErr.noConfusion hc⟩)

theorem extractCond_error_safe (w : JValue) (e : PyErr)
    (h : extractCond w = .error e) : e.dirSafe := by
  unfold extractCond at h
  repeat' split at h
  all_goals first
    | exact Except.noConfusion h
    | exact getItem_error_safe _ _ _ h
    | (injection h with h2
       subst h2
       first
         | exact pyLen_error_safe _ _ (by assumption)
         | exact getIdx_error_safe _ _ _ (by assumption))

theorem processEntry_error_safe (tz : Int) (entry : JValue) (e : PyErr)
    (h : processEntry tz entry = .error e) : e.dirSafe := by
  unfold processEntry at h
  repeat' split at h
  all_goals first
    | exact Except.noConfusion h
    | (injection h with h2
       subst h2
       first
         | exact except_ok_ne_error (by assumption)
         | exact getItem_error_safe _ _ _ (by assumption)
         | exact fromtimestamp_error_safe _ _ _ (by assumption)
         | exact extractCond_error_safe _ _ (by assumption))

theorem process_error_safe (tz : Int) (data : JValue) (e : PyErr)
    (h : process_forecast_data tz data = .error e) : e.dirSafe := by
  unfold process_forecast_data at h
  repeat' split at h
  all_goals first
    | exact Except.noConfusion h
    | (injection h with h2
       subst h2
       first
         | exact pyContains_error_safe _ _ _ (by assumption)
         | exact getItem_error_safe _ _ _ (by assumption)
         | exact asIterable_error_safe _ _ (by assumption)
         | (obtain ⟨x, hx, hfx⟩ :=
              mapExcept_error_src (processEntry tz) _ _ (by assumption)
            exact processEntry_error_safe _ _ _ hfx))

theorem ensure_plots_dir_ok (d : Bool) :
    ensure_plots_dir d = .ok (true, if d then [] else [Event.createDir]) := by
  cases d <;> rfl

theorem plot_temperature_forecast_true (ts : List Int)
    (temps feels : List JValue) (city : String) :
    plot_temperature_forecast true ts temps feels city =
      .ok [.plotTemp ts temps feels,
           .writeFile (pathJoin PLOTS_DIR "temperature_forecast.png")] := rfl

theorem plot_humidity_forecast_true (ts : List Int) (hums : List JValue)
    (city : String) :
    plot_humidity_forecast true ts hums city =
      .ok [.plotHum ts hums,
           .writeFile (pathJoin PLOTS_DIR "humidity_forecast.png")] := rfl

theorem plot_wind_speed_forecast_true (ts : List Int) (winds : List JValue)
    (city : String) :
    plot_wind_speed_forecast true ts winds city =
      .ok [.plotWind ts winds,
           .writeFile (pathJoin PLOTS_DIR "wind_speed_forecast.png")] := rfl

theorem plot_weather_conditions_pie_true (descs : List JValue) (city : String) :
    plot_weather_conditions_pie true descs city =
      .ok (if descs.isEmpty then [Event.pieSkipped]
           else [.piePlot descs,
                 .writeFile (pathJoin PLOTS_DIR "weather_conditions_pie_chart.png")]) := by
  by_cases hd : descs.isEmpty <;> simp [plot_weather_conditions_pie, savefig, hd]

theorem extractCond_falsy (w : JValue) (hw : w.truthy = false) :
    extractCond w = .ok (.str "N/A") := by
  simp [extractCond, hw]

theorem extractCond_cons (c : JValue) (cs : List JValue) :
    extractCond (.arr (c :: cs)) = c.getItem "main" := by
  simp [extractCond, JValue.truthy, pyLen, JValue.getIdx]

theorem processEntry_ok_weather (tz : Int) (entry : JValue) (row : Row)
    (h : processEntry tz entry = .ok row) :
    ∃ w, entry.getItem "weather" = .ok w ∧ extractCond w = .ok row.cond := by
  unfold processEntry at h
  repeat' split at h
  all_goals first
    | exact Except.noConfusion h
    | exact except_ok_ne_error (by assumption)
    | (injection h with h2
       subst h2
       exact ⟨_, by assumption, by assumption⟩)

theorem main_run_error_safe (env : Env) (e : PyErr)
    (h : main_run env = .error e) : e.dirSafe := by
  unfold main_run at h
  simp only [ensure_plots_dir_ok, plot_temperature_forecast_true,
    plot_humidity_forecast_true, plot_wind_speed_forecast_true,
    plot_weather_conditions_pie_true] at h
  repeat' split at h
  all_goals first
    | exact Except.noConfusion h
    | exact except_ok_ne_error (by assumption)
    | (injection h with h2
       subst h2
       exact process_error_safe _ _ _ (by assumption))

/-! Concrete fixtures used by witnesses and counterexamples. -/

/-- A fully-populated forecast entry with the given epoch, readings and
weather condition list. -/
def entryFull (t temp feels hum speed : Int) (weather : JValue) : JValue :=
  .obj [("dt", .num t),
        ("main", .obj [("temp", .num temp), ("feels_like", .num feels),
                       ("humidity", .num hum)]),
        ("wind", .obj [("speed", .num speed)]),
        ("weather", weather)]

/-- A one-element condition list with primary category label Clear. -/
def wClear : JValue := .arr [.obj [("main", .str "Clear")]]

/-- Scenario A entries: three entries with increasing timestamps and
temperatures 10, 12, 9 in that order. -/
def entriesA : List JValue :=
  [entryFull 1 10 9 50 3 wClear,
   entryFull 2 12 11 55 4 wClear,
   entryFull 3 9 8 60 5 wClear]

def dataA : JValue := .obj [("list", .arr entriesA)]

/-- The columnar output of transforming dataA at timezone offset 0. -/
def colsA : Columns :=
  ⟨[1, 2, 3],
   [.num 10, .num 12, .num 9],
   [.num 9, .num 11, .num 8],
   [.num 50, .num 55, .num 60],
   [.num 3, .num 4, .num 5],
   [.str "Clear", .str "Clear", .str "Clear"]⟩

def envA : Env := ⟨some "ABC", "", some "Paris", 0, .ok dataA, false⟩

/-- A response whose forecast list is present but empty. -/
def dataEmptyList : JValue := .obj [("list", .arr [])]

def envEmptyList : Env := ⟨some "k", "", some "c", 0, .ok dataEmptyList, false⟩

/-- A response whose single entry has an empty condition list. -/
def dataEmptyConds : JValue :=
  .obj [("list", .arr [entryFull 1 10 9 50 3 (.arr [])])]

def envEmptyConds : Env := ⟨some "k", "", some "c", 0, .ok dataEmptyConds, true⟩

/-- A response whose single entry lacks every key (an empty dict). -/
def dataBadEntry : JValue := .obj [("list", .arr [.obj []])]

def envBadEntry : Env := ⟨some "k", "", some "c", 0, .ok dataBadEntry, true⟩

/-- A response whose single entry is complete except that the weather key
is absent. -/
def entryNoWeather : JValue :=
  .obj [("dt", .num 1),
        ("main", .obj [("temp", .num 10), ("feels_like", .num 9),
                       ("humidity", .num 50)]),
        ("wind", .obj [("speed", .num 3)])]

def dataNoWeather : JValue := .obj [("list", .arr [entryNoWeather])]

/-- The temperature list handed to the first temperature-chart call of a
trace, when there is one. -/
def tempsArgOf : List Event → Option (List JValue)
  | [] => none
  | .plotTemp _ temps _ :: _ => some temps
  | _ :: rest => tempsArgOf rest

def mainTempsArg (env : Env) : Option (List JValue) :=
  match main_run env with
  | .ok tr => tempsArgOf tr
  | .error _ => none

example : process_forecast_data 0 dataA = .ok (some colsA) := rfl

/-! Claim theorems. -/

/-- C1 counterexample: a response whose forecast list is present but empty
is not rejected: process_forecast_data returns six empty sequences rather
than an absent result, and the pipeline then still writes the three line
charts (only the pie chart is skipped). -/
theorem claim_C1_counterexample :
    process_forecast_data 0 dataEmptyList = .ok (some ⟨[], [], [], [], [], []⟩) ∧
    mainWrites envEmptyList =
      [pathJoin PLOTS_DIR "temperature_forecast.png",
       pathJoin PLOTS_DIR "humidity_forecast.png",
       pathJoin PLOTS_DIR "wind_speed_forecast.png"] :=
  ⟨rfl, rfl⟩

/-- C1 (amended): for every response value that is falsy (such as an empty
dictionary) or whose membership test for the top-level list key is false,
process_forecast_data returns an absent result; and whenever
process_forecast_data returns an absent result, the pipeline writes no
chart file.  (A present-but-empty forecast list is not absent: see the
counterexample.) -/
theorem claim_C1 :
    (∀ (tz : Int) (data : JValue), data.truthy = false →
      process_forecast_data tz data = .ok none) ∧
    (∀ (tz : Int) (data : JValue), pyContains data "list" = .ok false →
      process_forecast_data tz data = .ok none) ∧
    (∀ (env : Env) (data : JValue), env.response = .ok data →
      process_forecast_data env.tz data = .ok none →
      mainWrites env = []) := by
  refine ⟨?_, ?_, ?_⟩
  · intro tz data h
    simp [process_forecast_data, h]
  · intro tz data h
    cases ht : data.truthy
    · simp [process_forecast_data, ht]
    · simp [process_forecast_data, ht, h]
  · intro env data hr hp
    unfold mainWrites
    have hmr : ∀ tr, main_run env = .ok tr → writesOf tr = [] := by
      intro tr htr
      unfold main_run at htr
      rw [hr] at htr
      simp only [fetch_weather_data, diagEvents, hp] at htr
      repeat' split at htr
      all_goals first
        | exact Except.noConfusion htr
        | (injection htr with h2
           subst h2
           rfl)
    cases hm : main_run env with
    | ok tr => exact hmr tr hm
    | error e => rfl

/-- C1 witness: a null response is falsy, is rejected as absent, and the
corresponding run writes nothing. -/
theorem claim_C1_witness :
    process_forecast_data 0 JValue.null = .ok none ∧
    mainWrites ⟨some "k", "", some "c", 0, .ok .null, false⟩ = [] :=
  ⟨claim_C1.1 0 .null rfl,
   claim_C1.2.2 ⟨some "k", "", some "c", 0, .ok .null, false⟩ .null rfl
     (claim_C1.1 0 .null rfl)⟩

/-- C2: for a response whose forecast list holds entries, a successful
transformation yields six sequences each of the length of the entry list,
and at every index all six values are the ones processEntry extracts from
the entry at that same index. -/
theorem claim_C2 (tz : Int) (data : JValue) (entries : List JValue)
    (cols : Columns)
    (hlist : data.getItem "list" = .ok (.arr entries))
    (hp : process_forecast_data tz data = .ok (some cols)) :
    (cols.timestamps.length = entries.length ∧
     cols.temperatures.length = entries.length ∧
     cols.feels_like_temps.length = entries.length ∧
     cols.humidities.length = entries.length ∧
     cols.wind_speeds.length = entries.length ∧
     cols.weather_descriptions_main.length = entries.length) ∧
    (∀ (i : Nat) (entry : JValue), entries[i]? = some entry →
      ∃ row, processEntry tz entry = .ok row ∧
        cols.timestamps[i]? = some row.ts ∧
        cols.temperatures[i]? = some row.temp ∧
        cols.feels_like_temps[i]? = some row.feels ∧
        cols.humidities[i]? = some row.hum ∧
        cols.wind_speeds[i]? = some row.wind ∧
        cols.weather_descriptions_main[i]? = some row.cond) := by
  unfold process_forecast_data at hp
  repeat' split at hp
  all_goals first
    | exact Except.noConfusion hp
    | exact Option.noConfusion (Except.ok.inj hp)
    | skip
  rename_i xC hasList hC hNE xL lst hL xI ents hI xM rows hM
  rw [hlist] at hL
  injection hL with hL2
  subst hL2
  injection hI with hI2
  subst hI2
  injection hp with hp2
  injection hp2 with hp3
  subst hp3
  constructor
  · refine ⟨?_, ?_, ?_, ?_, ?_, ?_⟩ <;>
      simp [columnsOf, mapExcept_ok_length (processEntry tz) entries rows hM]
  · intro i entry hi
    obtain ⟨row, hfr, hrow⟩ :=
      mapExcept_ok_getElem (processEntry tz) entries rows hM i entry hi
    refine ⟨row, hfr, ?_, ?_, ?_, ?_, ?_, ?_⟩ <;>
      simp [columnsOf, List.getElem?_map, hrow]

/-- C2 witness: on the three-entry scenario response, each column has the
length of the entry list. -/
theorem claim_C2_witness : colsA.temperatures.length = entriesA.length :=
  (claim_C2 0 dataA entriesA colsA rfl rfl).1.2.1

/-- C3 counterexample: an entry lacking the weather key entirely does not
get the N/A label: the transformation raises an uncaught key-lookup error
instead of producing any columns. -/
theorem claim_C3_counterexample :
    process_forecast_data 0 dataNoWeather = .error (.keyError (.str "weather")) :=
  rfl

/-- C3 (amended): for every forecast entry whose weather value is present
and falsy (an empty condition list, or null), a successful transformation
gives that entry the literal label N/A; when the condition list is present
and non-empty, the label is the result of looking up the primary category
of its first element.  An entry whose weather key is absent instead raises
a key-lookup error (see the counterexample and C10). -/
theorem claim_C3 :
    (∀ (tz : Int) (entry : JValue) (row : Row) (w : JValue),
      processEntry tz entry = .ok row →
      entry.getItem "weather" = .ok w →
      w.truthy = false →
      row.cond = .str "N/A") ∧
    (∀ (tz : Int) (entry : JValue) (row : Row) (c : JValue) (cs : List JValue),
      processEntry tz entry = .ok row →
      entry.getItem "weather" = .ok (.arr (c :: cs)) →
      c.getItem "main" = .ok row.cond) := by
  constructor
  · intro tz entry row w hrow hw hfalsy
    obtain ⟨w2, hw2, hc⟩ := processEntry_ok_weather tz entry row hrow
    rw [hw] at hw2
    injection hw2 with h3
    subst h3
    rw [extractCond_falsy w hfalsy] at hc
    injection hc with h4
    exact h4.symm
  · intro tz entry row c cs hrow hw
    obtain ⟨w2, hw2, hc⟩ := processEntry_ok_weather tz entry row hrow
    rw [hw] at hw2
    injection hw2 with h3
    subst h3
    rw [extractCond_cons] at hc
    exact hc

/-- C3 witness: an entry with an empty condition list gets the label N/A,
and an entry with condition list wClear gets the label Clear. -/
theorem claim_C3_witness :
    (⟨1, .num 10, .num 9, .num 50, .num 3, .str "N/A"⟩ : Row).cond = .str "N/A" ∧
    JValue.getItem (.obj [("main", .str "Clear")]) "main" =
      .ok ((⟨1, .num 10, .num 9, .num 50, .num 3, .str "Clear"⟩ : Row).cond) :=
  ⟨claim_C3.1 0 (entryFull 1 10 9 50 3 (.arr []))
      ⟨1, .num 10, .num 9, .num 50, .num 3, .str "N/A"⟩ (.arr []) rfl rfl rfl,
   claim_C3.2 0 (entryFull 1 10 9 50 3 wClear)
      ⟨1, .num 10, .num 9, .num 50, .num 3, .str "Clear"⟩
      (.obj [("main", .str "Clear")]) [] rfl rfl⟩

/-- C4: retrieval classifies failures into five distinct cases, each
printing one diagnostic and returning an absent result; fetch_weather_data
is a total function of the network outcome, so no exception passes its
boundary. -/
theorem claim_C4 :
    fetch_weather_data (.httpError 401) = (none, some .authFailed) ∧
    fetch_weather_data (.httpError 404) = (none, some .cityNotFound) ∧
    (∀ s : Nat, s ≠ 401 → s ≠ 404 →
      fetch_weather_data (.httpError s) = (none, some (.httpOther s))) ∧
    fetch_weather_data .requestError = (none, some .requestFailed) ∧
    fetch_weather_data .decodeError = (none, some .decodeFailed) ∧
    (∀ o : NetOutcome, (∀ b, o ≠ .ok b) →
      (fetch_weather_data o).1 = none ∧ ∃ d, (fetch_weather_data o).2 = some d) ∧
    (∀ s : Nat, [Diag.authFailed, Diag.cityNotFound, Diag.httpOther s,
      Diag.requestFailed, Diag.decodeFailed].Nodup) := by
  refine ⟨rfl, rfl, ?_, rfl, rfl, ?_, ?_⟩
  · intro s h1 h4
    simp [fetch_weather_data, h1, h4]
  · intro o ho
    cases o with
    | ok b => exact absurd rfl (ho b)
    | httpError s =>
      by_cases h1 : s = 401
      · subst h1
        exact ⟨rfl, .authFailed, rfl⟩
      · by_cases h4 : s = 404
        · subst h4
          exact ⟨rfl, .cityNotFound, rfl⟩
        · simp [fetch_weather_data, h1, h4]
    | requestError => exact ⟨rfl, .requestFailed, rfl⟩
    | decodeError => exact ⟨rfl, .decodeFailed, rfl⟩
  · intro s
    simp

/-- C4 witness: a 500 status is classified as a generic HTTP failure, and
a network failure yields an absent result with a diagnostic. -/
theorem claim_C4_witness :
    fetch_weather_data (.httpError 500) = (none, some (.httpOther 500)) ∧
    ((fetch_weather_data .requestError).1 = none ∧
      ∃ d, (fetch_weather_data .requestError).2 = some d) :=
  ⟨claim_C4.2.2.1 500 (by decide) (by decide),
   claim_C4.2.2.2.2.2.1 .requestError (fun b h => NetOutcome.noConfusion h)⟩

/-- C5: credential resolution never returns an empty string, and when both
the environment lookup and the stripped interactive input are empty the run
exits before the network call: the whole trace is the exit event, with no
fetch. -/
theorem claim_C5 :
    (∀ (envKey : Option String) (promptInput : String) (k : String),
      get_api_key envKey promptInput = some k → k ≠ "") ∧
    (∀ env : Env, (env.envApiKey = none ∨ env.envApiKey = some "") →
      pyStrip env.promptInput = "" →
      main_run env = .ok [.exited]) := by
  constructor
  · intro envKey promptInput k h
    simp only [get_api_key] at h
    repeat' split at h
    all_goals first
      | exact Option.noConfusion h
      | (rename_i hne
         injection h with h2
         subst h2
         exact hne)
  · intro env hkey hstrip
    unfold main_run
    have hk : get_api_key env.envApiKey env.promptInput = none := by
      rcases hkey with h | h <;> rw [h] <;> simp [get_api_key, hstrip]
    rw [hk]

/-- C5 witness: a key from the environment is returned non-empty, and a run
with no environment key and whitespace-only input exits with no fetch. -/
theorem claim_C5_witness :
    "ABC" ≠ "" ∧
    main_run ⟨none, " ", some "c", 0, .requestError, false⟩ = .ok [.exited] :=
  ⟨claim_C5.1 (some "ABC") "" "ABC" rfl,
   claim_C5.2 ⟨none, " ", some "c", 0, .requestError, false⟩ (Or.inl rfl) rfl⟩

/-- C6: the directory handling creates the plots directory when absent and
raises nothing when it is present (result is always ok with the directory
existing); a write only succeeds when the directory exists; and no run ever
fails with a missing-directory or directory-exists error, so every write in
every run happens with the destination directory present. -/
theorem claim_C6 :
    (∀ d : Bool,
      ensure_plots_dir d = .ok (true, if d then [] else [Event.createDir])) ∧
    (∀ (d : Bool) (f : String) (ev : Event), savefig d f = .ok ev → d = true) ∧
    (∀ (env : Env) (e : PyErr), main_run env = .error e →
      e ≠ .fileNotFoundError ∧ e ≠ .fileExistsError) := by
  refine ⟨ensure_plots_dir_ok, ?_, ?_⟩
  · intro d f ev h
    cases d
    · exact Except.noConfusion h
    · rfl
  · intro env e h
    exact main_run_error_safe env e h

/-- C6 witness: an absent directory is created without error, a successful
write implies the directory existed, and the one failing run exhibited
raises a key error, not a filesystem error. -/
theorem claim_C6_witness :
    ensure_plots_dir false = .ok (true, [Event.createDir]) ∧
    true = true ∧
    (PyErr.keyError (.str "dt") ≠ PyErr.fileNotFoundError ∧
     PyErr.keyError (.str "dt") ≠ PyErr.fileExistsError) :=
  ⟨claim_C6.1 false,
   claim_C6.2.1 true "f" (.writeFile "f") rfl,
   claim_C6.2.2 envBadEntry (.keyError (.str "dt")) rfl⟩

/-- C7 counterexample: a run whose one entry has an empty condition list
gets the substituted label N/A, so the label sequence handed to the pie
step is non-empty and the pie chart is rendered after all: the run writes
four chart files, not three. -/
theorem claim_C7_counterexample :
    process_forecast_data 0 dataEmptyConds =
      .ok (some ⟨[1], [.num 10], [.num 9], [.num 50], [.num 3], [.str "N/A"]⟩) ∧
    mainWrites envEmptyConds =
      [pathJoin PLOTS_DIR "temperature_forecast.png",
       pathJoin PLOTS_DIR "humidity_forecast.png",
       pathJoin PLOTS_DIR "wind_speed_forecast.png",
       pathJoin PLOTS_DIR "weather_conditions_pie_chart.png"] :=
  ⟨rfl, rfl⟩

/-- C7 (amended): when the label sequence handed to the pie step is empty,
the step skips rendering, reports there is nothing to plot and writes no
file; that sequence is empty exactly when the forecast list itself is
empty, and such a run writes exactly the three line-chart files.  A run
whose entries all have empty condition lists instead yields N/A labels and
still renders the pie chart (see the counterexample). -/
theorem claim_C7 :
    (∀ (d : Bool) (city : String),
      plot_weather_conditions_pie d [] city = .ok [.pieSkipped]) ∧
    (∀ (k city : String) (tz : Int) (d : Bool), k ≠ "" → city ≠ "" →
      mainWrites ⟨some k, "", some city, tz, .ok dataEmptyList, d⟩ =
        [pathJoin PLOTS_DIR "temperature_forecast.png",
         pathJoin PLOTS_DIR "humidity_forecast.png",
         pathJoin PLOTS_DIR "wind_speed_forecast.png"]) := by
  constructor
  · intro d city
    rfl
  · intro k city tz d hk hcity
    cases d <;>
      simp [mainWrites, main_run, get_api_key, hk, hcity, fetch_weather_data,
        diagEvents, process_forecast_data, dataEmptyList, pyContains,
        JValue.truthy, JValue.getItem, lookupField, asIterable, mapExcept,
        columnsOf, ensure_plots_dir, makedirs, plot_temperature_forecast,
        plot_humidity_forecast, plot_wind_speed_forecast,
        plot_weather_conditions_pie, savefig, writesOf]

/-- C7 witness: the pie step on an empty sequence only reports and skips,
and a run with an empty forecast list writes exactly the three line
charts. -/
theorem claim_C7_witness :
    plot_weather_conditions_pie true [] "c" = .ok [.pieSkipped] ∧
    mainWrites ⟨some "k", "", some "c", 0, .ok dataEmptyList, true⟩ =
      [pathJoin PLOTS_DIR "temperature_forecast.png",
       pathJoin PLOTS_DIR "humidity_forecast.png",
       pathJoin PLOTS_DIR "wind_speed_forecast.png"] :=
  ⟨claim_C7.1 true "c", claim_C7.2 "k" "c" 0 true (by decide) (by decide)⟩

/-- C8: order is preserved from the source response: on the three-entry
scenario with temperatures 10, 12, 9 in that order, transformation yields
exactly that temperature column and the temperature chart call of the full
run receives it unchanged. -/
theorem claim_C8 :
    process_forecast_data 0 dataA = .ok (some colsA) ∧
    colsA.temperatures = [.num 10, .num 12, .num 9] ∧
    mainTempsArg envA = some [.num 10, .num 12, .num 9] :=
  ⟨rfl, rfl, rfl⟩

/-- C9: transformation is deterministic: identical parsed responses produce
identical columnar data. -/
theorem claim_C9 (tz : Int) (d1 d2 : JValue) (h : d1 = d2) :
    process_forecast_data tz d1 = process_forecast_data tz d2 := by
  rw [h]

/-- C9 witness: the scenario response transformed twice gives equal
columns. -/
theorem claim_C9_witness :
    process_forecast_data 0 dataA = process_forecast_data 0 dataA :=
  claim_C9 0 dataA dataA rfl

/-- C10: transformation is partial over malformed entries: an entry lacking
dt, main, temp, feels_like, humidity, wind, speed or weather (each with the
preceding lookups well-formed) raises a key-lookup error from processEntry,
and any such raising entry in the forecast list makes
process_forecast_data raise rather than return an absent result or
substitute a default. -/
theorem claim_C10 :
    (∀ (tz : Int) (fs : List (String × JValue)),
      lookupField fs "dt" = none →
      processEntry tz (.obj fs) = .error (.keyError (.str "dt"))) ∧
    (∀ (tz : Int) (fs : List (String × JValue)) (n : Int),
      lookupField fs "dt" = some (.num n) →
      lookupField fs "main" = none →
      processEntry tz (.obj fs) = .error (.keyError (.str "main"))) ∧
    (∀ (tz : Int) (fs ms : List (String × JValue)) (n : Int),
      lookupField fs "dt" = some (.num n) →
      lookupField fs "main" = some (.obj ms) →
      lookupField ms "temp" = none →
      processEntry tz (.obj fs) = .error (.keyError (.str "temp"))) ∧
    (∀ (tz : Int) (fs ms : List (String × JValue)) (n : Int) (tv : JValue),
      lookupField fs "dt" = some (.num n) →
      lookupField fs "main" = some (.obj ms) →
      lookupField ms "temp" = some tv →
      lookupField ms "feels_like" = none →
      processEntry tz (.obj fs) = .error (.keyError (.str "feels_like"))) ∧
    (∀ (tz : Int) (fs ms : List (String × JValue)) (n : Int) (tv fv : JValue),
      lookupField fs "dt" = some (.num n) →
      lookupField fs "main" = some (.obj ms) →
      lookupField ms "temp" = some tv →
      lookupField ms "feels_like" = some fv →
      lookupField ms "humidity" = none →
      processEntry tz (.obj fs) = .error (.keyError (.str "humidity"))) ∧
    (∀ (tz : Int) (fs ms : List (String × JValue)) (n : Int) (tv fv hv : JValue),
      lookupField fs "dt" = some (.num n) →
      lookupField fs "main" = some (.obj ms) →
      lookupField ms "temp" = some tv →
      lookupField ms "feels_like" = some fv →
      lookupField ms "humidity" = some hv →
      lookupField fs "wind" = none →
      processEntry tz (.obj fs) = .error (.keyError (.str "wind"))) ∧
    (∀ (tz : Int) (fs ms ws : List (String × JValue)) (n : Int)
        (tv fv hv : JValue),
      lookupField fs "dt" = some (.num n) →
      lookupField fs "main" = some (.obj ms) →
      lookupField ms "temp" = some tv →
      lookupField ms "feels_like" = some fv →
      lookupField ms "humidity" = some hv →
      lookupField fs "wind" = some (.obj ws) →
      lookupField ws "speed" = none →
      processEntry tz (.obj fs) = .error (.keyError (.str "speed"))) ∧
    (∀ (tz : Int) (fs ms ws : List (String × JValue)) (n : Int)
        (tv fv hv sv : JValue),
      lookupField fs "dt" = some (.num n) →
      lookupField fs "main" = some (.obj ms) →
      lookupField ms "temp" = some tv →
      lookupField ms "feels_like" = some fv →
      lookupField ms "humidity" = some hv →
      lookupField fs "wind" = some (.obj ws) →
      lookupField ws "speed" = some sv →
      lookupField fs "weather" = none →
      processEntry tz (.obj fs) = .error (.keyError (.str "weather"))) ∧
    (∀ (tz : Int) (data : JValue) (entries : List JValue) (entry : JValue)
        (e : PyErr),
      data.getItem "list" = .ok (.arr entries) →
      data.truthy = true →
      pyContains data "list" = .ok true →
      entry ∈ entries →
      processEntry tz entry = .error e →
      ∃ e2, process_forecast_data tz data = .error e2) := by
  refine ⟨?_, ?_, ?_, ?_, ?_, ?_, ?_, ?_, ?_⟩
  · intro tz fs h
    simp [processEntry, JValue.getItem, h]
  · intro tz fs n h1 h2
    simp [processEntry, JValue.getItem, fromtimestamp, h1, h2]
  · intro tz fs ms n h1 h2 h3
    simp [processEntry, JValue.getItem, fromtimestamp, h1, h2, h3]
  · intro tz fs ms n tv h1 h2 h3 h4
    simp [processEntry, JValue.getItem, fromtimestamp, h1, h2, h3, h4]
  · intro tz fs ms n tv fv h1 h2 h3 h4 h5
    simp [processEntry, JValue.getItem, fromtimestamp, h1, h2, h3, h4, h5]
  · intro tz fs ms n tv fv hv h1 h2 h3 h4 h5 h6
    simp [processEntry, JValue.getItem, fromtimestamp, h1, h2, h3, h4, h5, h6]
  · intro tz fs ms ws n tv fv hv h1 h2 h3 h4 h5 h6 h7
    simp [processEntry, JValue.getItem, fromtimestamp, h1, h2, h3, h4, h5, h6, h7]
  · intro tz fs ms ws n tv fv hv sv h1 h2 h3 h4 h5 h6 h7 h8
    simp [processEntry, JValue.getItem, fromtimestamp, h1, h2, h3, h4, h5, h6, h7, h8]
  · intro tz data entries entry e hlist htr hcont hmem herr
    obtain ⟨e2, hm⟩ :=
      mapExcept_error_of_mem (processEntry tz) entries entry hmem ⟨e, herr⟩
    exact ⟨e2, by simp [process_forecast_data, htr, hcont, hlist, asIterable, hm]⟩

/-- C10 witness: the entry lacking its weather key raises a key-lookup
error, and so does the transformation of the response containing it. -/
theorem claim_C10_witness :
    processEntry 0 entryNoWeather = .error (.keyError (.str "weather")) ∧
    (∃ e2, process_forecast_data 0 dataNoWeather = .error e2) := by
  have hW : processEntry 0 entryNoWeather = .error (.keyError (.str "weather")) :=
    claim_C10.2.2.2.2.2.2.2.1 0
      [("dt", .num 1),
       ("main", .obj [("temp", .num 10), ("feels_like", .num 9),
                      ("humidity", .num 50)]),
       ("wind", .obj [("speed", .num 3)])]
      [("temp", .num 10), ("feels_like", .num 9), ("humidity", .num 50)]
      [("speed", .num 3)]
      1 (.num 10) (.num 9) (.num 50) (.num 3)
      rfl rfl rfl rfl rfl rfl rfl rfl
  refine ⟨hW, ?_⟩
  exact claim_C10.2.2.2.2.2.2.2.2 0 dataNoWeather [entryNoWeather]
    entryNoWeather (.keyError (.str "weather")) rfl rfl rfl
    (List.mem_singleton.mpr rfl) hW

end Weather
